import Mathlib

/-!
Verification development for the session/polling/aggregation engine of
misnersplunktool.py (Misner Splunk Tool). Python functions from the source
are embedded shallowly as executable Lean definitions: Python strings are
lists of characters, Python dicts are association lists, GUI calls are
abstracted to the data they carry, and Python exceptions become explicit
result constructors. Each definition cites the source function it embeds.
-/

set_option autoImplicit false

namespace MisnerSplunkTool

/-- A Python string, modelled as its list of characters. -/
abbrev PyStr := List Char

/-- Python `s.split(sep)` for a one-character separator: non-overlapping
split that never collapses empty parts, with an empty string splitting to
one empty part. -/
def pySplitOn (sep : Char) : PyStr → List PyStr
  | [] => [[]]
  | c :: rest =>
    let r := pySplitOn sep rest
    if c = sep then [] :: r
    else
      match r with
      | [] => [[c]]
      | h :: t => (c :: h) :: t

/-- Python `s.count(sep)` for a one-character separator: splitting yields
one more part than there are occurrences. -/
def pyCount (sep : Char) (s : PyStr) : Nat :=
  (pySplitOn sep s).length - 1

/-- Python `s.strip()`: removes leading and trailing whitespace. -/
def pyStrip (s : PyStr) : PyStr :=
  ((s.dropWhile Char.isWhitespace).reverse.dropWhile Char.isWhitespace).reverse

/-- Helper for `pyInSub`: does `hay` begin with `needle`? -/
def listStarts : PyStr → PyStr → Bool
  | [], _ => true
  | _ :: _, [] => false
  | a :: as, b :: bs => a = b && listStarts as bs

/-- Python `needle in hay` for strings: substring containment. -/
def pyInSub (needle hay : PyStr) : Bool :=
  match hay with
  | [] => needle.isEmpty
  | _ :: rest => listStarts needle hay || pyInSub needle rest

/-- Value of a non-empty all-digit character list, used by `pyInt?`. -/
def pyDigits? (s : PyStr) : Option Nat :=
  if s ≠ [] ∧ s.all Char.isDigit then
    some (s.foldl (fun a c => a * 10 + (c.toNat - 48)) 0)
  else
    none

/-- Python `int(s)` on a string: optional surrounding whitespace, an optional
sign, then digits; anything else raises `ValueError` (`none` here). -/
def pyInt? (s : PyStr) : Option Int :=
  match pyStrip s with
  | '-' :: rest => (pyDigits? rest).map (fun n => -(n : Int))
  | '+' :: rest => (pyDigits? rest).map (fun n => (n : Int))
  | l => (pyDigits? l).map (fun n => (n : Int))

/-- Assignment `d[k] = v` on a Python dict, modelled on an association list:
an existing binding of `k` is overwritten, otherwise the pair is appended. -/
def dictInsert : List (PyStr × PyStr) → PyStr → PyStr → List (PyStr × PyStr)
  | [], k, v => [(k, v)]
  | (k', v') :: rest, k, v =>
    if k' = k then (k', v) :: rest else (k', v') :: dictInsert rest k v

/-- Lookup `d[k]` on the association-list model of a Python dict. -/
def dictLookup : List (PyStr × PyStr) → PyStr → Option PyStr
  | [], _ => none
  | (k', v) :: rest, k => if k' = k then some v else dictLookup rest k

/-! ## Ad-hoc query path: `MainWindow.buttonRestSend_clicked` (lines 1022-1054)

The URI text may embed an inline query string. The code runs, inside a
`try` whose `except ValueError` shows a parse warning and returns before
any dispatch:

    if '?' in uri:
        uri, parameter_string = uri.split('?')
        for parameter in parameter_string.split('&'):
            key, value = parameter.split('=')
            parameters[key] = value

On success it dispatches `rest_call(uri, method, ..., **parameters)`.
-/

/-- The message shown by `warning_msg` when the inline query string of an
ad-hoc REST URI fails to parse. -/
def uriParseWarning : String := "Unable to parse parameters in URI, check formatting"

/-- The loop of `buttonRestSend_clicked` over `parameter_string.split('&')`:
each parameter must unpack as `key, value = parameter.split('=')` — anything
but exactly two parts raises `ValueError`, caught as the parse warning — and
is then assigned into the `parameters` dict. -/
def parseParameters : List PyStr → List (PyStr × PyStr) →
    Except String (List (PyStr × PyStr))
  | [], acc => .ok acc
  | p :: rest, acc =>
    match pySplitOn '=' p with
    | [k, v] => parseParameters rest (dictInsert acc k v)
    | _ => .error uriParseWarning

/-- The URI-parsing phase of `buttonRestSend_clicked`. The test
`'?' in uri` holds exactly when splitting on `'?'` yields more than one
part, so the branch is rendered as a match on the split: one part means no
query string (the `parameters` dict stays empty); two parts is the
successful unpack `uri, parameter_string = uri.split('?')`; three or more
parts make that unpack raise `ValueError`, caught as the parse warning.
On success the REST call is dispatched to the returned path with the
returned parameters. -/
def buttonRestSend_parseUri (uri : PyStr) :
    Except String (PyStr × List (PyStr × PyStr)) :=
  match pySplitOn '?' uri with
  | [u] => .ok (u, [])
  | [u, parameter_string] =>
    (parseParameters (pySplitOn '&' parameter_string) []).map (fun ps => (u, ps))
  | _ => .error uriParseWarning

/-- The value dispatched for key `k` when the pairs are assigned in order
into a dict: the value of the last pair that parses as `k = v`. -/
def lastValue (k : PyStr) : List PyStr → Option PyStr
  | [] => none
  | p :: rest =>
    match lastValue k rest with
    | some v => some v
    | none =>
      match pySplitOn '=' p with
      | [k', v] => if k' = k then some v else none
      | _ => none

/-! ## Session connect: `MainWindow.connect` (lines 395-437)

The three text fields are stripped and checked non-empty (each failure is a
`warning_msg` and an early return, before any network call). Then:

    if ':' in splunk_host:
        splunk_host, splunk_port = self.ui.comboAddress.currentText().split(':')
        splunk_port = int(splunk_port)
    else:
        splunk_port = 8089
    if not 0 < splunk_port < 65536:
        self.warning_msg("Invalid port specified")
        return

and only after that does `Splunkd(splunk_host, splunk_port, ...)` open the
network connection. Note the split is applied to the raw (unstripped)
combo-box text, while the colon test is on the stripped text; stripping
removes only whitespace, so the stripped host contains a colon exactly when
the raw text does, i.e. exactly when the split has more than one part.
-/

/-- Result of a `connect` attempt, up to the point where the network is
first touched. `validationFailure` is a `warning_msg` and return before any
network call; `pyValueError` is an uncaught `ValueError` (a colon-count or
`int()` failure in the port parse); `attempt` records the arguments with
which the `Splunkd` network connection is opened. -/
inductive ConnectResult where
  | validationFailure (msg : String)
  | pyValueError
  | attempt (host : PyStr) (port : Int) (user : PyStr) (password : PyStr)
  deriving DecidableEq

/-- `MainWindow.connect`, from the three input-field texts down to the
network attempt. -/
def connect (addressText userText passText : PyStr) : ConnectResult :=
  let splunk_host := pyStrip addressText
  let splunk_user := pyStrip userText
  let splunk_pass := pyStrip passText
  if splunk_host = [] then .validationFailure "Missing Splunk address"
  else if splunk_user = [] then .validationFailure "Missing Splunk username"
  else if splunk_pass = [] then .validationFailure "Missing Splunk password"
  else
    match pySplitOn ':' addressText with
    | [_] =>
      -- no colon in the address, so none in the stripped host: port defaults
      let splunk_port : Int := 8089
      if 0 < splunk_port ∧ splunk_port < 65536 then
        .attempt splunk_host splunk_port splunk_user splunk_pass
      else .validationFailure "Invalid port specified"
    | [host2, portStr] =>
      match pyInt? portStr with
      | none => .pyValueError
      | some splunk_port =>
        if 0 < splunk_port ∧ splunk_port < 65536 then
          .attempt host2 splunk_port splunk_user splunk_pass
        else .validationFailure "Invalid port specified"
    | _ => .pyValueError

/-! ## Session teardown: `MainWindow.disconnect` (lines 459-546)

    try:
        del self.splunkd
    except AttributeError:
        pass

then all GUI fields are reset. The `splunkd` attribute is the Session; it
is present (`some`) while connected and absent (`none`) otherwise.
-/

/-- The Session object held in the `splunkd` attribute: instance-identity
facts resolved at connect time. Only its presence matters to the lifecycle
claims. -/
structure Splunkd where
  host : PyStr
  roles : List PyStr
  deriving DecidableEq

/-- Python exception classes relevant to the embedded control flow. -/
inductive PyError where
  | attributeError
  deriving DecidableEq

/-- `del self.splunkd`: raises `AttributeError` when the attribute is
already absent, otherwise removes it. -/
def delAttrSplunkd : Option Splunkd → Except PyError (Option Splunkd)
  | some _ => .ok none
  | none => .error .attributeError

/-- `MainWindow.disconnect` on the `splunkd` attribute: the `del` inside
`try`, with `except AttributeError: pass`. The returned value is the
attribute after the call; an `.error` would be an uncaught exception. -/
def disconnect (splunkd : Option Splunkd) : Except PyError (Option Splunkd) :=
  match delAttrSplunkd splunkd with
  | .ok s => .ok s
  | .error .attributeError => .ok none

/-! ## Snapshot poller: `MainWindow.poll` (lines 548-768)

First a connectivity check `self.splunkd.service.settings` inside a `try`
with three handlers — `binding.AuthenticationError`, `socket.error`, and a
bare `except:` — each of which calls `self.disconnect()`, shows a
`critical_msg`, and returns. Then the nine sub-polls run in a fixed order
inside a second `try` whose only handler is `except socket.error`, which
also disconnects, shows a `critical_msg`, and returns. Only when every
sub-poll succeeded does the GUI-population phase run.
-/

/-- Failure classification for an exception raised by a REST call during
polling: `binding.AuthenticationError`, `socket.error`, or anything else. -/
inductive PyExc where
  | authenticationError
  | socketError
  | otherError
  deriving DecidableEq

/-- The nine sub-poll operations of `MainWindow.poll`, in source order. -/
inductive SubPoll where
  | poll_service_info
  | poll_service_settings
  | poll_service_messages
  | get_service_confs
  | get_services_admin_inputstatus
  | poll_service_apps
  | get_services_cluster_master
  | get_services_shcluster
  | get_services_server_status
  deriving DecidableEq

/-- The fixed ordered sequence of sub-polls run by `MainWindow.poll`. -/
def pollSequence : List SubPoll :=
  [.poll_service_info, .poll_service_settings, .poll_service_messages,
   .get_service_confs, .get_services_admin_inputstatus, .poll_service_apps,
   .get_services_cluster_master, .get_services_shcluster,
   .get_services_server_status]

/-- Runs sub-polls in order until the first one that raises, given the
behaviour `f` of each sub-poll on this poll. Returns how many sub-polls
completed (and so mutated the `Splunkd` object) and the first exception
raised, if any. -/
def runSubPolls (f : SubPoll → Option PyExc) :
    List SubPoll → Nat → Nat × Option PyExc
  | [], n => (n, none)
  | s :: rest, n =>
    match f s with
    | none => runSubPolls f rest (n + 1)
    | some e => (n, some e)

/-- How `MainWindow.poll` returns control. `tornDown` means
`self.disconnect()` ran and the message was shown by `critical_msg`;
`unhandledRaise` means the exception escaped `poll` uncaught (no handler
matched, so no disconnect and no message); `completed` means every step
succeeded and the GUI-population phase ran, presenting the full snapshot. -/
inductive PollOutcome where
  | tornDown (msg : String)
  | unhandledRaise (e : PyExc)
  | completed
  deriving DecidableEq

/-- Net effect of one call to `MainWindow.poll`: its control-flow outcome,
how many of the nine sub-poll mutations were applied to the `Splunkd`
object, and whether the `splunkd` attribute (the Session) still exists
after the call. -/
structure PollResult where
  outcome : PollOutcome
  stepsCompleted : Nat
  splunkdRetained : Bool
  deriving DecidableEq

/-- `critical_msg` text for an `AuthenticationError` at the connectivity
check. -/
def pollResetMsg : String := "Splunk connection reset"

/-- `critical_msg` text (up to the interpolated cause) for a `socket.error`
during the connectivity check or the sub-poll sequence. -/
def pollSocketMsg : String := "Socket error while attempting to poll splunkd:"

/-- `critical_msg` text for the bare `except:` at the connectivity check. -/
def pollUnknownMsg : String := "Unknown error while attempting to poll splunkd"

/-- `MainWindow.poll`, as a function of what the connectivity check raises
(`settingsCheck`) and what each sub-poll raises (`f`). -/
def poll (settingsCheck : Option PyExc) (f : SubPoll → Option PyExc) :
    PollResult :=
  match settingsCheck with
  | some .authenticationError =>
    { outcome := .tornDown pollResetMsg, stepsCompleted := 0, splunkdRetained := false }
  | some .socketError =>
    { outcome := .tornDown pollSocketMsg, stepsCompleted := 0, splunkdRetained := false }
  | some .otherError =>
    { outcome := .tornDown pollUnknownMsg, stepsCompleted := 0, splunkdRetained := false }
  | none =>
    match runSubPolls f pollSequence 0 with
    | (n, none) =>
      { outcome := .completed, stepsCompleted := n, splunkdRetained := true }
    | (n, some .socketError) =>
      { outcome := .tornDown pollSocketMsg, stepsCompleted := n, splunkdRetained := false }
    | (n, some e) =>
      { outcome := .unhandledRaise e, stepsCompleted := n, splunkdRetained := true }

/-! ## TCP-listener merge inside `MainWindow.poll` (lines 683-691)

    tcpmonitors = []
    for monitor in self.splunkd.rawtcp_status:
        monitor['tcptype'] = 'Raw'
        tcpmonitors.append(monitor)
    for monitor in self.splunkd.cookedtcp_status:
        monitor['tcptype'] = 'Cooked'
        tcpmonitors.append(monitor)

Each record is a dict; the loop is equivalent to mapping the tag
assignment over each list and concatenating.
-/

/-- The merged `tcpmonitors` collection handed to `table_builder`. -/
def tcpMonitors (rawtcp_status cookedtcp_status : List (List (PyStr × PyStr))) :
    List (List (PyStr × PyStr)) :=
  rawtcp_status.map (fun monitor => dictInsert monitor "tcptype".toList "Raw".toList)
    ++ cookedtcp_status.map (fun monitor => dictInsert monitor "tcptype".toList "Cooked".toList)

/-! ## Cluster aggregates inside `MainWindow.poll` (lines 709-722) -/

/-- One indexer-cluster peer record, reduced to the fields the aggregate
claims mention. -/
structure ClusterPeer where
  name : PyStr
  is_searchable : Bool
  status : PyStr
  deriving DecidableEq

/-- One indexer-cluster index record, reduced to the fields the aggregate
claims mention. -/
structure ClusterIndex where
  name : PyStr
  is_searchable : Bool
  deriving DecidableEq

/-- Modelled from the spec: the wrapper attribute
`self.splunkd.cluster_peers_searchable` is computed by `misnersplunkdwrapper.py`
(not under src/) as the count of cluster peers whose fully-searchable flag
is true. -/
def cluster_peers_searchable (cluster_peers : List ClusterPeer) : Nat :=
  (cluster_peers.filter (fun p => p.is_searchable)).length

/-- Modelled from the spec: the wrapper attribute
`self.splunkd.cluster_indexes_searchable` is the count of cluster indexes
whose fully-searchable flag is true. -/
def cluster_indexes_searchable (cluster_indexes : List ClusterIndex) : Nat :=
  (cluster_indexes.filter (fun i => i.is_searchable)).length

/-- Line 712: `peers_unsearchable = len(self.splunkd.cluster_peers) -
self.splunkd.cluster_peers_searchable`, over Python integers. -/
def peers_unsearchable (cluster_peers : List ClusterPeer) : Int :=
  (cluster_peers.length : Int) - (cluster_peers_searchable cluster_peers : Int)

/-- Line 715: `indexes_unsearchable = len(self.splunkd.cluster_indexes) -
self.splunkd.cluster_indexes_searchable`, over Python integers. -/
def indexes_unsearchable (cluster_indexes : List ClusterIndex) : Int :=
  (cluster_indexes.length : Int) - (cluster_indexes_searchable cluster_indexes : Int)

/-! ## Change deployment server:
`MainWindow.actionChangeDeploymentServer_clicked` (lines 943-1001)

After the connectivity check and the confirmation dialog, with
`new_deployment_server` the dialog text:

    if new_deployment_server:
        disabled = '0'; targeturi = new_deployment_server
    else:
        disabled = '1'; targeturi = ''
    ...
    body_input = "disabled=%s&targetUri=%s" % (disabled, targeturi)
    result = self.splunkd.rest_call(uri, method='POST', body_input=body_input)

then the response message is inspected: a non-`INFO` type, or a message
containing `'modified 0 key'`, each produce a `critical_msg` and return
with the Session untouched; otherwise `self.splunkd.service.restart()` and
`self.disconnect()` run.
-/

/-- How the deployment-server change concludes: a reported, non-fatal
failure with the Session kept, or a restart followed by teardown. -/
inductive DeployOutcome where
  | operationFailure (msg : String)
  | restarted
  deriving DecidableEq

/-- Net effect of the deployment-server change: the POST body sent, the
outcome, and whether `self.disconnect()` ran. -/
structure DeployAction where
  body_input : PyStr
  outcome : DeployOutcome
  disconnected : Bool
  deriving DecidableEq

/-- `critical_msg` prefix when the response message type is not INFO. -/
def deployModifyErrMsg : String := "Error while attempting to modify deployment server URI:"

/-- `critical_msg` prefix when the response reports no keys modified. -/
def deployNoChangeMsg : String := "Splunkd reports no changes made to deployment server URI:"

/-- `MainWindow.actionChangeDeploymentServer_clicked` from the dialog text
to the restart decision, as a function of the dialog text and of the
`type` and `$text` of the message in the server response. -/
def actionChangeDeploymentServer (new_deployment_server result_type result_msg : PyStr) :
    DeployAction :=
  let disabled : PyStr := if new_deployment_server ≠ [] then "0".toList else "1".toList
  let targeturi : PyStr := if new_deployment_server ≠ [] then new_deployment_server else []
  let body_input : PyStr := "disabled=".toList ++ disabled ++ "&targetUri=".toList ++ targeturi
  if result_type ≠ "INFO".toList then
    { body_input := body_input, outcome := .operationFailure deployModifyErrMsg,
      disconnected := false }
  else if pyInSub "modified 0 key".toList result_msg then
    { body_input := body_input, outcome := .operationFailure deployNoChangeMsg,
      disconnected := false }
  else
    { body_input := body_input, outcome := .restarted, disconnected := true }

/-! ## Helper lemmas -/

theorem dictLookup_dictInsert (d : List (PyStr × PyStr)) (k' v k : PyStr) :
    dictLookup (dictInsert d k' v) k =
      if k' = k then some v else dictLookup d k := by
  induction d with
  | nil => simp [dictInsert, dictLookup]
  | cons p rest ih =>
    obtain ⟨a, b⟩ := p
    by_cases hak : a = k'
    · subst hak
      by_cases h : a = k <;> simp [dictInsert, dictLookup, h]
    · by_cases h : a = k
      · subst h
        have : ¬ (k' = a) := fun hc => hak hc.symm
        simp [dictInsert, dictLookup, hak, this]
      · simp [dictInsert, dictLookup, hak, h, ih]

theorem lastValue_cons (k p : PyStr) (rest : List PyStr) :
    lastValue k (p :: rest) =
      match lastValue k rest with
      | some v => some v
      | none =>
        match pySplitOn '=' p with
        | [k', v] => if k' = k then some v else none
        | _ => none := rfl

theorem parseParameters_lookup (k : PyStr) :
    ∀ (l : List PyStr) (acc res : List (PyStr × PyStr)),
      parseParameters l acc = .ok res →
      dictLookup res k =
        match lastValue k l with
        | some v => some v
        | none => dictLookup acc k := by
  intro l
  induction l with
  | nil =>
    intro acc res h
    simp [parseParameters] at h
    subst h
    simp [lastValue]
  | cons p rest ih =>
    intro acc res h
    unfold parseParameters at h
    rcases hsplit : pySplitOn '=' p with _ | ⟨k', tl⟩
    · rw [hsplit] at h; exact absurd h (by simp)
    rcases tl with _ | ⟨v, tl2⟩
    · rw [hsplit] at h; exact absurd h (by simp)
    rcases tl2 with _ | ⟨w, tl3⟩
    · rw [hsplit] at h
      have hres := ih (dictInsert acc k' v) res h
      rw [hres, lastValue_cons, hsplit]
      cases hlast : lastValue k rest with
      | some w => simp
      | none =>
        rw [dictLookup_dictInsert]
        by_cases hk : k' = k <;> simp [hk]
    · rw [hsplit] at h; exact absurd h (by simp)

theorem parseParameters_error_of_badPair :
    ∀ (l : List PyStr) (acc : List (PyStr × PyStr)) (p : PyStr),
      p ∈ l → (pySplitOn '=' p).length ≠ 2 →
      parseParameters l acc = .error uriParseWarning := by
  intro l
  induction l with
  | nil => intro acc p hp; exact absurd hp (by simp)
  | cons q rest ih =>
    intro acc p hp hbad
    unfold parseParameters
    rcases List.mem_cons.mp hp with hq | hrest
    · subst hq
      rcases hsplit : pySplitOn '=' p with _ | ⟨k', tl⟩
      · rfl
      rcases tl with _ | ⟨v, tl2⟩
      · rfl
      rcases tl2 with _ | ⟨w, tl3⟩
      · rw [hsplit] at hbad; exact absurd rfl hbad
      · rfl
    · rcases hsplit : pySplitOn '=' q with _ | ⟨k', tl⟩
      · rfl
      rcases tl with _ | ⟨v, tl2⟩
      · rfl
      rcases tl2 with _ | ⟨w, tl3⟩
      · exact ih _ p hrest hbad
      · rfl

theorem mem_dropWhile_not_ws (c : Char) (hc : ¬ c.isWhitespace = true) :
    ∀ l : PyStr, c ∈ l.dropWhile Char.isWhitespace ↔ c ∈ l := by
  intro l
  induction l with
  | nil => simp
  | cons a t ih =>
    by_cases ha : a.isWhitespace = true
    · have hne : c ≠ a := fun h => hc (h ▸ ha)
      simp [List.dropWhile_cons, ha, ih, hne]
    · simp [List.dropWhile_cons, ha]

theorem mem_pyStrip_iff (c : Char) (hc : ¬ c.isWhitespace = true) (s : PyStr) :
    c ∈ pyStrip s ↔ c ∈ s := by
  unfold pyStrip
  rw [List.mem_reverse, mem_dropWhile_not_ws c hc, List.mem_reverse,
    mem_dropWhile_not_ws c hc]

theorem pySplitOn_of_not_mem (c : Char) :
    ∀ s : PyStr, c ∉ s → pySplitOn c s = [s] := by
  intro s
  induction s with
  | nil => intro h; rfl
  | cons a t ih =>
    intro h
    have hac : ¬ a = c := fun hh => h (by simp [hh])
    have ht : c ∉ t := fun hh => h (List.mem_cons_of_mem _ hh)
    simp only [pySplitOn]
    rw [if_neg hac, ih ht]

/-! ## Claim theorems -/

/-- C4: given the URI `/services/foo?a=1&b=2`, the ad-hoc query path
dispatches to path `/services/foo` with parameters `a = 1` and `b = 2`
(inline query-string parameters split on `&` and `=` and placed in the
dispatch parameters); given `/services/foo?bad`, whose single pair lacks an
`=`, it fails with the parse warning (a ValidationFailure) before any
dispatch occurs. -/
theorem C4_adhoc_query_parsing :
    buttonRestSend_parseUri "/services/foo?a=1&b=2".toList =
      .ok ("/services/foo".toList,
           [("a".toList, "1".toList), ("b".toList, "2".toList)]) ∧
    buttonRestSend_parseUri "/services/foo?bad".toList = .error uriParseWarning :=
  ⟨rfl, rfl⟩

/-- C10: the ad-hoc query parser is strictly stricter than "pair lacks an
equals sign": a URI with more than one question mark fails with the same
parse warning; a pair with two or more equals signs fails with the same
parse warning; and with duplicate keys, the value dispatched for a key is
the value of its last occurrence in the query string. -/
theorem C10_parser_strictness :
    (∀ uri : PyStr, 2 ≤ pyCount '?' uri →
      buttonRestSend_parseUri uri = .error uriParseWarning) ∧
    (∀ uri path qs p : PyStr, pySplitOn '?' uri = [path, qs] →
      p ∈ pySplitOn '&' qs → 2 ≤ pyCount '=' p →
      buttonRestSend_parseUri uri = .error uriParseWarning) ∧
    (∀ (uri path qs : PyStr) (params : List (PyStr × PyStr)) (k v : PyStr),
      pySplitOn '?' uri = [path, qs] →
      buttonRestSend_parseUri uri = .ok (path, params) →
      lastValue k (pySplitOn '&' qs) = some v →
      dictLookup params k = some v) := by
  refine ⟨?_, ?_, ?_⟩
  · intro uri h
    have hlen : 3 ≤ (pySplitOn '?' uri).length := by
      unfold pyCount at h; omega
    unfold buttonRestSend_parseUri
    rcases h2 : pySplitOn '?' uri with _ | ⟨a, _ | ⟨b, _ | ⟨c, t⟩⟩⟩
    all_goals first
      | rfl
      | (rw [h2] at hlen; simp at hlen)
  · intro uri path qs p hsplit hmem hcnt
    have hbad : (pySplitOn '=' p).length ≠ 2 := by
      unfold pyCount at hcnt; omega
    unfold buttonRestSend_parseUri
    rw [hsplit]
    show Except.map (fun ps => (path, ps)) (parseParameters (pySplitOn '&' qs) [])
      = Except.error uriParseWarning
    rw [parseParameters_error_of_badPair (pySplitOn '&' qs) [] p hmem hbad]
    rfl
  · intro uri path qs params k v hsplit hok hlast
    unfold buttonRestSend_parseUri at hok
    rw [hsplit] at hok
    replace hok : Except.map (fun ps => (path, ps))
        (parseParameters (pySplitOn '&' qs) []) = Except.ok (path, params) := hok
    cases hpp : parseParameters (pySplitOn '&' qs) [] with
    | error e =>
      rw [hpp] at hok
      exact absurd hok (by simp [Except.map])
    | ok res =>
      rw [hpp] at hok
      simp only [Except.map, Except.ok.injEq, Prod.mk.injEq, true_and] at hok
      have hlook := parseParameters_lookup k (pySplitOn '&' qs) [] res hpp
      rw [hlast] at hlook
      rw [← hok]
      exact hlook

/-- C10 witness: the three parts of the strictness theorem exercised on
concrete URIs — a double question mark, a pair with two equals signs, and a
duplicated key whose last value wins. -/
theorem C10_parser_strictness_witness :
    buttonRestSend_parseUri "/services/foo?x=1?y=2".toList = .error uriParseWarning ∧
    buttonRestSend_parseUri "/services/foo?a=b=c".toList = .error uriParseWarning ∧
    dictLookup [("a".toList, "3".toList), ("b".toList, "2".toList)] "a".toList =
      some "3".toList :=
  ⟨C10_parser_strictness.1 "/services/foo?x=1?y=2".toList (by decide),
   C10_parser_strictness.2.1 "/services/foo?a=b=c".toList "/services/foo".toList
     "a=b=c".toList "a=b=c".toList (by decide) (by decide) (by decide),
   C10_parser_strictness.2.2 "/services/foo?a=1&b=2&a=3".toList "/services/foo".toList
     "a=1&b=2&a=3".toList [("a".toList, "3".toList), ("b".toList, "2".toList)]
     "a".toList "3".toList (by decide) rfl (by decide)⟩

/-- C3: a connect attempt with an empty (after stripping) address, username
or password, or with an explicit port outside 1-65535, fails with a
field-level warning (ValidationFailure) and never reaches the network-call
constructor; and whenever the network call is attempted, all those
validations had passed. -/
theorem C3_connect_validation :
    (∀ a u p : PyStr,
      pyStrip a = [] ∨ pyStrip u = [] ∨ pyStrip p = [] →
      ∃ msg, connect a u p = .validationFailure msg) ∧
    (∀ (a u p host2 portStr : PyStr) (port : Int),
      pySplitOn ':' a = [host2, portStr] →
      pyInt? portStr = some port →
      ¬ (1 ≤ port ∧ port ≤ 65535) →
      ∃ msg, connect a u p = .validationFailure msg) ∧
    (∀ (a u p h : PyStr) (port : Int) (usr pw : PyStr),
      connect a u p = .attempt h port usr pw →
      pyStrip a ≠ [] ∧ pyStrip u ≠ [] ∧ pyStrip p ≠ [] ∧
        1 ≤ port ∧ port ≤ 65535) := by
  refine ⟨?_, ?_, ?_⟩
  · intro a u p h
    by_cases ha : pyStrip a = []
    · exact ⟨"Missing Splunk address", by simp [connect, ha]⟩
    by_cases hu : pyStrip u = []
    · exact ⟨"Missing Splunk username", by simp [connect, ha, hu]⟩
    by_cases hp : pyStrip p = []
    · exact ⟨"Missing Splunk password", by simp [connect, ha, hu, hp]⟩
    rcases h with h | h | h <;> exact absurd h (by assumption)
  · intro a u p host2 portStr port hsplit hint hrange
    by_cases ha : pyStrip a = []
    · exact ⟨"Missing Splunk address", by simp [connect, ha]⟩
    by_cases hu : pyStrip u = []
    · exact ⟨"Missing Splunk username", by simp [connect, ha, hu]⟩
    by_cases hp : pyStrip p = []
    · exact ⟨"Missing Splunk password", by simp [connect, ha, hu, hp]⟩
    refine ⟨"Invalid port specified", ?_⟩
    have hcond : ¬ (0 < port ∧ port < 65536) := by omega
    simp [connect, ha, hu, hp, hsplit, hint, hcond]
  · intro a u p h port usr pw hatt
    by_cases ha : pyStrip a = []
    · simp [connect, ha] at hatt
    by_cases hu : pyStrip u = []
    · simp [connect, ha, hu] at hatt
    by_cases hp : pyStrip p = []
    · simp [connect, ha, hu, hp] at hatt
    refine ⟨ha, hu, hp, ?_⟩
    rcases hsp : pySplitOn ':' a with _ | ⟨x, _ | ⟨pstr, _ | ⟨y, t⟩⟩⟩
    · simp [connect, ha, hu, hp, hsp] at hatt
    · norm_num [connect, ha, hu, hp, hsp] at hatt
      obtain ⟨-, hport, -, -⟩ := hatt
      omega
    · cases hint : pyInt? pstr with
      | none => simp [connect, ha, hu, hp, hsp, hint] at hatt
      | some q =>
        by_cases hc : 0 < q ∧ q < 65536
        · simp [connect, ha, hu, hp, hsp, hint, hc] at hatt
          obtain ⟨-, hq, -, -⟩ := hatt
          omega
        · simp [connect, ha, hu, hp, hsp, hint, hc] at hatt
    · simp [connect, ha, hu, hp, hsp] at hatt

/-- C3 witness: a blank (whitespace-only) username is rejected; the
out-of-range explicit port 99999 is rejected; and a successful attempt at
host:8089 certifies that its validations passed. -/
theorem C3_connect_validation_witness :
    (∃ msg, connect "host".toList " ".toList "pw".toList = .validationFailure msg) ∧
    (∃ msg, connect "host:99999".toList "admin".toList "pw".toList =
      .validationFailure msg) ∧
    (pyStrip "host:8089".toList ≠ [] ∧ pyStrip "admin".toList ≠ [] ∧
      pyStrip "pw".toList ≠ [] ∧ 1 ≤ (8089 : Int) ∧ (8089 : Int) ≤ 65535) :=
  ⟨C3_connect_validation.1 "host".toList " ".toList "pw".toList
     (Or.inr (Or.inl (by decide))),
   C3_connect_validation.2.1 "host:99999".toList "admin".toList "pw".toList
     "host".toList "99999".toList 99999 (by decide) (by decide) (by omega),
   C3_connect_validation.2.2 "host:8089".toList "admin".toList "pw".toList
     "host".toList 8089 "admin".toList "pw".toList (by decide)⟩

/-- C9: when the stripped address contains no colon, the management port
defaults to 8089 and the port-range check passes vacuously, so (with the
three fields non-empty) the network attempt proceeds at port 8089. -/
theorem C9_default_port (a u p : PyStr)
    (hcolon : ':' ∉ pyStrip a)
    (ha : pyStrip a ≠ []) (hu : pyStrip u ≠ []) (hp : pyStrip p ≠ []) :
    connect a u p = .attempt (pyStrip a) 8089 (pyStrip u) (pyStrip p) := by
  have hraw : ':' ∉ a := fun hmem =>
    hcolon ((mem_pyStrip_iff ':' (by decide) a).mpr hmem)
  have hsp : pySplitOn ':' a = [a] := pySplitOn_of_not_mem ':' a hraw
  norm_num [connect, ha, hu, hp, hsp]

/-- C9 witness: connecting to a bare hostname attempts the network call at
the default management port 8089. -/
theorem C9_default_port_witness :
    connect "host".toList "admin".toList "pw".toList =
      .attempt "host".toList 8089 "admin".toList "pw".toList :=
  C9_default_port "host".toList "admin".toList "pw".toList
    (by decide) (by decide) (by decide) (by decide)

/-- C1 counterexample: with a healthy connectivity check and an
authentication failure raised by the third sub-poll (messages), the poll
ends in an unhandled exception — the sub-poll `try` catches only
`socket.error` — so the Session is NOT torn down, no typed failure is
surfaced, and the `Splunkd` object keeps the two sub-poll mutations already
applied, contradicting the claim that any transport or authentication
failure at any step tears the Session down as by disconnect. -/
theorem C1_poll_teardown_counterexample :
    poll none (fun s => match s with
      | .poll_service_messages => some .authenticationError
      | _ => none) =
    { outcome := .unhandledRaise .authenticationError, stepsCompleted := 2,
      splunkdRetained := true } := by decide

/-- C1 amended: any failure (authentication, socket, or other) at the
initial connectivity check aborts the poll with teardown and a typed
message, and a socket failure at any sub-poll step does the same; but an
authentication failure raised during a sub-poll step is not caught — the
poll aborts with an unhandled exception, without teardown, retaining the
partially-updated Splunkd object; the snapshot-presentation phase runs
exactly when every step succeeded. -/
theorem C1_poll_teardown_amended (f : SubPoll → Option PyExc) (e : PyExc) (n : Nat) :
    ((poll (some e) f).splunkdRetained = false ∧
      ∃ msg, (poll (some e) f).outcome = .tornDown msg) ∧
    (runSubPolls f pollSequence 0 = (n, some .socketError) →
      poll none f =
        { outcome := .tornDown pollSocketMsg, stepsCompleted := n,
          splunkdRetained := false }) ∧
    (runSubPolls f pollSequence 0 = (n, some .authenticationError) →
      poll none f =
        { outcome := .unhandledRaise .authenticationError,
          stepsCompleted := n, splunkdRetained := true }) ∧
    ((poll none f).outcome = .completed ↔
      (runSubPolls f pollSequence 0).2 = none) := by
  refine ⟨?_, ?_, ?_, ?_⟩
  · cases e <;> exact ⟨rfl, _, rfl⟩
  · intro h; simp [poll, h]
  · intro h; simp [poll, h]
  · unfold poll
    rcases hr : runSubPolls f pollSequence 0 with ⟨m, o⟩
    cases o with
    | none => simp
    | some e' => cases e' <;> simp

/-- C1 amended witness: a socket failure at the very first sub-poll tears
the Session down with the socket message; an authentication failure at the
eighth sub-poll escapes unhandled with the Session retained. -/
theorem C1_poll_teardown_amended_witness :
    poll none (fun _ => some PyExc.socketError) =
      { outcome := .tornDown pollSocketMsg, stepsCompleted := 0,
        splunkdRetained := false } ∧
    poll none (fun s => match s with
      | .get_services_shcluster => some .authenticationError
      | _ => none) =
      { outcome := .unhandledRaise .authenticationError, stepsCompleted := 7,
        splunkdRetained := true } :=
  ⟨(C1_poll_teardown_amended (fun _ => some PyExc.socketError)
      PyExc.socketError 0).2.1 (by decide),
   (C1_poll_teardown_amended (fun s => match s with
      | .get_services_shcluster => some .authenticationError
      | _ => none) PyExc.socketError 7).2.2.1 (by decide)⟩

/-- C2 counterexample: an unclassified exception raised by the first
sub-poll is not caught by the sub-poll `try` (which handles only
`socket.error`), so it propagates without any disconnect — the Session is
retained — contradicting the claim that every unclassified exception
during polling triggers teardown before the error is reported. -/
theorem C2_unknown_failure_counterexample :
    poll none (fun _ => some PyExc.otherError) =
      { outcome := .unhandledRaise .otherError, stepsCompleted := 0,
        splunkdRetained := true } := by decide

/-- C2 amended: an unclassified exception at the initial connectivity check
is treated as fatal — the Session is torn down before the unknown-error
message is reported; but an unclassified exception during the nine-step
sub-poll sequence is not caught and propagates without teardown, leaving
the partially-updated Session in place. -/
theorem C2_unknown_failure_amended (f : SubPoll → Option PyExc) (n : Nat) :
    poll (some .otherError) f =
      { outcome := .tornDown pollUnknownMsg, stepsCompleted := 0,
        splunkdRetained := false } ∧
    (runSubPolls f pollSequence 0 = (n, some .otherError) →
      poll none f =
        { outcome := .unhandledRaise .otherError,
          stepsCompleted := n, splunkdRetained := true }) := by
  refine ⟨rfl, ?_⟩
  intro h
  simp [poll, h]

/-- C2 amended witness: an unclassified exception at the sixth sub-poll
(apps) escapes unhandled with the Session retained. -/
theorem C2_unknown_failure_amended_witness :
    poll none (fun s => match s with
      | .poll_service_apps => some .otherError
      | _ => none) =
      { outcome := .unhandledRaise .otherError, stepsCompleted := 5,
        splunkdRetained := true } :=
  (C2_unknown_failure_amended (fun s => match s with
      | .poll_service_apps => some .otherError
      | _ => none) 5).2 (by decide)

/-- C5: merging one raw-TCP record with one cooked-TCP record yields
exactly two entries, the raw-origin one tagged Raw and the cooked-origin
one tagged Cooked in the tcptype field, with every other field of each
record unchanged from its source record. -/
theorem C5_tcp_merge (r c : List (PyStr × PyStr)) :
    (tcpMonitors [r] [c]).length = 2 ∧
    dictLookup ((tcpMonitors [r] [c]).headD []) "tcptype".toList =
      some "Raw".toList ∧
    dictLookup ((tcpMonitors [r] [c]).getD 1 []) "tcptype".toList =
      some "Cooked".toList ∧
    (∀ k : PyStr, k ≠ "tcptype".toList →
      dictLookup ((tcpMonitors [r] [c]).headD []) k = dictLookup r k ∧
      dictLookup ((tcpMonitors [r] [c]).getD 1 []) k = dictLookup c k) := by
  have hm : tcpMonitors [r] [c] =
      [dictInsert r "tcptype".toList "Raw".toList,
       dictInsert c "tcptype".toList "Cooked".toList] := rfl
  refine ⟨by rw [hm]; rfl, ?_, ?_, ?_⟩
  · rw [hm]
    show dictLookup (dictInsert r "tcptype".toList "Raw".toList) "tcptype".toList = _
    rw [dictLookup_dictInsert]
    simp
  · rw [hm]
    show dictLookup (dictInsert c "tcptype".toList "Cooked".toList) "tcptype".toList = _
    rw [dictLookup_dictInsert]
    simp
  · intro k hk
    constructor
    · rw [hm]
      show dictLookup (dictInsert r "tcptype".toList "Raw".toList) k = _
      rw [dictLookup_dictInsert, if_neg (fun hh => hk hh.symm)]
    · rw [hm]
      show dictLookup (dictInsert c "tcptype".toList "Cooked".toList) k = _
      rw [dictLookup_dictInsert, if_neg (fun hh => hk hh.symm)]

/-- C5 witness: merging one raw record and one cooked record that each
carry a port field leaves both port values unchanged in the merged
collection. -/
theorem C5_tcp_merge_witness :
    dictLookup ((tcpMonitors [[("port".toList, "9997".toList)]]
        [[("port".toList, "9998".toList)]]).headD []) "port".toList =
      some "9997".toList ∧
    dictLookup ((tcpMonitors [[("port".toList, "9997".toList)]]
        [[("port".toList, "9998".toList)]]).getD 1 []) "port".toList =
      some "9998".toList := by
  have h := (C5_tcp_merge [("port".toList, "9997".toList)]
    [("port".toList, "9998".toList)]).2.2.2 "port".toList (by decide)
  exact ⟨h.1.trans (by decide), h.2.trans (by decide)⟩

/-- C6: the displayed not-searchable count is the exact complement of the
searchable count against the collection size, so searchable plus
not-searchable equals the total, for cluster peers and for cluster
indexes. -/
theorem C6_aggregate_complement (cluster_peers : List ClusterPeer)
    (cluster_indexes : List ClusterIndex) :
    (cluster_peers_searchable cluster_peers : Int) +
        peers_unsearchable cluster_peers = cluster_peers.length ∧
    (cluster_indexes_searchable cluster_indexes : Int) +
        indexes_unsearchable cluster_indexes = cluster_indexes.length :=
  ⟨by unfold peers_unsearchable; ring, by unfold indexes_unsearchable; ring⟩

/-- C7: invoking the deployment-server change with a blank target POSTs the
body `disabled=1&targetUri=` (disabling the client with an empty target);
the operation restarts and tears down exactly when the response type is
INFO and the message does not report zero modified keys; a non-INFO type is
reported as a non-fatal modify failure and a zero-modified-keys message as
a non-fatal no-change failure, in both cases without restart. -/
theorem C7_disable_deployment_client (result_type result_msg : PyStr) :
    (actionChangeDeploymentServer [] result_type result_msg).body_input =
      "disabled=1&targetUri=".toList ∧
    ((actionChangeDeploymentServer [] result_type result_msg).outcome =
        .restarted ↔
      result_type = "INFO".toList ∧
        pyInSub "modified 0 key".toList result_msg = false) ∧
    ((actionChangeDeploymentServer [] result_type result_msg).disconnected =
        true ↔
      (actionChangeDeploymentServer [] result_type result_msg).outcome =
        .restarted) ∧
    (result_type ≠ "INFO".toList →
      (actionChangeDeploymentServer [] result_type result_msg).outcome =
        .operationFailure deployModifyErrMsg) ∧
    (result_type = "INFO".toList →
      pyInSub "modified 0 key".toList result_msg = true →
      (actionChangeDeploymentServer [] result_type result_msg).outcome =
        .operationFailure deployNoChangeMsg) := by
  by_cases ht : result_type = "INFO".toList
  · by_cases hm : pyInSub "modified 0 key".toList result_msg = true
    · have hact : actionChangeDeploymentServer [] result_type result_msg =
          { body_input := "disabled=1&targetUri=".toList,
            outcome := .operationFailure deployNoChangeMsg,
            disconnected := false } := by
        unfold actionChangeDeploymentServer
        rw [ht, hm]
        simp
      rw [hact]
      refine ⟨rfl, ?_, ?_, ?_, ?_⟩
      · constructor
        · intro h; simp at h
        · rintro ⟨-, h2⟩
          rw [hm] at h2
          exact Bool.noConfusion h2
      · simp
      · intro hne; exact absurd ht hne
      · intro _ _; rfl
    · have hmf : pyInSub "modified 0 key".toList result_msg = false := by
        rw [← Bool.not_eq_true]; exact hm
      have hact : actionChangeDeploymentServer [] result_type result_msg =
          { body_input := "disabled=1&targetUri=".toList,
            outcome := .restarted, disconnected := true } := by
        unfold actionChangeDeploymentServer
        rw [ht, hmf]
        simp
      rw [hact]
      refine ⟨rfl, ?_, ?_, ?_, ?_⟩
      · constructor
        · intro _; exact ⟨ht, hmf⟩
        · intro _; rfl
      · simp
      · intro hne; exact absurd ht hne
      · intro _ hmt
        rw [hmt] at hmf
        exact Bool.noConfusion hmf
  · have hact : actionChangeDeploymentServer [] result_type result_msg =
        { body_input := "disabled=1&targetUri=".toList,
          outcome := .operationFailure deployModifyErrMsg,
          disconnected := false } := by
      unfold actionChangeDeploymentServer
      rw [if_pos ht]
      decide
    rw [hact]
    refine ⟨rfl, ?_, ?_, ?_, ?_⟩
    · constructor
      · intro h; simp at h
      · rintro ⟨h1, -⟩; exact absurd h1 ht
    · simp
    · intro _; rfl
    · intro heq _; exact absurd heq ht

/-- C7 witness: a non-INFO response reports a modify failure; an INFO
response whose message reports zero modified keys reports a no-change
failure. -/
theorem C7_disable_deployment_client_witness :
    (actionChangeDeploymentServer [] "ERROR".toList "x".toList).outcome =
      .operationFailure deployModifyErrMsg ∧
    (actionChangeDeploymentServer [] "INFO".toList
        "modified 0 keys".toList).outcome =
      .operationFailure deployNoChangeMsg :=
  ⟨(C7_disable_deployment_client "ERROR".toList "x".toList).2.2.2.1 (by decide),
   (C7_disable_deployment_client "INFO".toList
      "modified 0 keys".toList).2.2.2.2 rfl (by decide)⟩

/-- C8: disconnect is idempotent — from any Session state (connected, or
never connected) it completes without an uncaught error and leaves the
`splunkd` attribute absent, and a second disconnect from that state again
completes without error with the attribute still absent. -/
theorem C8_disconnect_idempotent (splunkd : Option Splunkd) :
    disconnect splunkd = .ok none ∧ disconnect none = .ok none := by
  refine ⟨?_, rfl⟩
  cases splunkd <;> rfl

end MisnerSplunkTool
